import Mathlib

/-!
Shallow embedding of the AR-Sandbox-RC Magic-Sand data-extraction snippets
(`src/magic_sand_data_extractor.cpp` and `src/magic_sand_extractor.cpp`).

The two C++ functions `exportFrameData` and `exportKinectData` read a depth
and a color pixel buffer from a Kinect frame grabber and dump their raw
bytes to files; `exportFrameData` additionally writes a JSON metadata
record.  We model pixel buffers as records of width, height, element size,
raw byte data and an allocated flag, the file system as an association
list from path strings to artifacts (newest write first, so a later write
to the same path shadows the earlier one, matching truncate-on-open), and
possible I/O failures by an environment that maps a path to the number of
bytes that get written before the write fails.
-/

/-- Decimal digit characters of `n`, most significant first, with explicit
fuel so that the definition is structurally recursive and kernel-reducible.
This embeds `ofToString` applied to a frame number. -/
def natDigitsAux (fuel : Nat) (n : Nat) : List Char :=
  match fuel with
  | 0 => []
  | fuel + 1 =>
    if n < 10 then [Char.ofNat (48 + n)]
    else natDigitsAux fuel (n / 10) ++ [Char.ofNat (48 + n % 10)]

/-- Decimal string of a natural number: the embedding of `ofToString(n)`. -/
def natToString (n : Nat) : String :=
  String.mk (natDigitsAux (n + 1) n)

/-- Read a decimal digit string back to a number (proof device used to
show `natToString` is injective). -/
def decVal (cs : List Char) : Nat :=
  cs.foldl (fun a c => 10 * a + (c.toNat - 48)) 0

theorem char_ofNat_digit_toNat : ∀ d : Nat, d < 10 → (Char.ofNat (48 + d)).toNat = 48 + d := by
  decide

theorem decVal_step (cs : List Char) (c : Char) :
    decVal (cs ++ [c]) = 10 * decVal cs + (c.toNat - 48) := by
  simp [decVal, List.foldl_append]

theorem decVal_natDigitsAux : ∀ (fuel n : Nat), n < fuel → decVal (natDigitsAux fuel n) = n := by
  intro fuel
  induction fuel with
  | zero => intro n h; omega
  | succ f ih =>
    intro n h
    by_cases h10 : n < 10
    · simp [natDigitsAux, h10, decVal, char_ofNat_digit_toNat n h10]
    · have hdiv : n / 10 < n := Nat.div_lt_self (by omega) (by omega)
      have hrec := ih (n / 10) (by omega)
      simp only [natDigitsAux, if_neg h10, decVal_step, hrec,
        char_ofNat_digit_toNat (n % 10) (Nat.mod_lt n (by omega))]
      omega

theorem natDigits_inj {n m : Nat}
    (h : natDigitsAux (n + 1) n = natDigitsAux (m + 1) m) : n = m := by
  have hn := decVal_natDigitsAux (n + 1) n (Nat.lt_succ_self n)
  have hm := decVal_natDigitsAux (m + 1) m (Nat.lt_succ_self m)
  rw [← hn, ← hm, h]

theorem natToString_inj {n m : Nat} (h : natToString n = natToString m) : n = m :=
  natDigits_inj (congrArg String.data h)

/-! ### Output paths

`exportFrameData` builds its three output paths by concatenating fixed
literals with the decimal frame number, exactly as in the source:
`"magic_sand_data/depth/depth_" + ofToString(ofGetFrameNum()) + ".raw"`
and so on.  `saveDepthData` / `saveColorData` in the second snippet use
fixed paths `"kinect_depth.raw"` / `"kinect_color.raw"` for every frame. -/

def depthPath (n : Nat) : String :=
  "magic_sand_data/depth/depth_" ++ natToString n ++ ".raw"

def rgbPath (n : Nat) : String :=
  "magic_sand_data/rgb/rgb_" ++ natToString n ++ ".raw"

def metaPath (n : Nat) : String :=
  "magic_sand_data/metadata_" ++ natToString n ++ ".json"

def kinectDepthPath : String := "kinect_depth.raw"

def kinectColorPath : String := "kinect_color.raw"

theorem depthPath_data (n : Nat) :
    (depthPath n).data = "magic_sand_data/depth/depth_".data ++ (natDigitsAux (n + 1) n ++ ".raw".data) := by
  simp [depthPath, String.data_append, natToString, List.append_assoc]

theorem rgbPath_data (n : Nat) :
    (rgbPath n).data = "magic_sand_data/rgb/rgb_".data ++ (natDigitsAux (n + 1) n ++ ".raw".data) := by
  simp [rgbPath, String.data_append, natToString, List.append_assoc]

theorem metaPath_data (n : Nat) :
    (metaPath n).data = "magic_sand_data/metadata_".data ++ (natDigitsAux (n + 1) n ++ ".json".data) := by
  simp [metaPath, String.data_append, natToString, List.append_assoc]

theorem depthPath_inj {n m : Nat} (h : depthPath n = depthPath m) : n = m := by
  have hd := congrArg String.data h
  rw [depthPath_data, depthPath_data] at hd
  have h2 := List.append_cancel_left hd
  exact natDigits_inj (List.append_cancel_right h2)

theorem rgbPath_inj {n m : Nat} (h : rgbPath n = rgbPath m) : n = m := by
  have hd := congrArg String.data h
  rw [rgbPath_data, rgbPath_data] at hd
  have h2 := List.append_cancel_left hd
  exact natDigits_inj (List.append_cancel_right h2)

theorem metaPath_inj {n m : Nat} (h : metaPath n = metaPath m) : n = m := by
  have hd := congrArg String.data h
  rw [metaPath_data, metaPath_data] at hd
  have h2 := List.append_cancel_left hd
  exact natDigits_inj (List.append_cancel_right h2)

theorem getElem16_depthPath (n : Nat) : (depthPath n).data[16]? = some 'd' := by
  rw [depthPath_data]
  rw [List.getElem?_append_left (by decide)]
  decide

theorem getElem16_rgbPath (n : Nat) : (rgbPath n).data[16]? = some 'r' := by
  rw [rgbPath_data]
  rw [List.getElem?_append_left (by decide)]
  decide

theorem getElem16_metaPath (n : Nat) : (metaPath n).data[16]? = some 'm' := by
  rw [metaPath_data]
  rw [List.getElem?_append_left (by decide)]
  decide

theorem depthPath_ne_rgbPath (n m : Nat) : depthPath n ≠ rgbPath m := by
  intro h
  have h16 : (depthPath n).data[16]? = (rgbPath m).data[16]? := by rw [h]
  rw [getElem16_depthPath, getElem16_rgbPath] at h16
  exact absurd h16 (by decide)

theorem depthPath_ne_metaPath (n m : Nat) : depthPath n ≠ metaPath m := by
  intro h
  have h16 : (depthPath n).data[16]? = (metaPath m).data[16]? := by rw [h]
  rw [getElem16_depthPath, getElem16_metaPath] at h16
  exact absurd h16 (by decide)

theorem rgbPath_ne_metaPath (n m : Nat) : rgbPath n ≠ metaPath m := by
  intro h
  have h16 : (rgbPath n).data[16]? = (metaPath m).data[16]? := by rw [h]
  rw [getElem16_rgbPath, getElem16_metaPath] at h16
  exact absurd h16 (by decide)

/-! ### Data model

`ofPixels` snapshot: width, height, bytes per element, raw data, allocated
flag.  `size()` is the total byte count `width * height * bytesPerPixel`;
`getData()` is the raw byte array.  An unallocated `ofPixels` reports
width and height 0 and holds no data; a successfully allocated one has
positive dimensions.  These class invariants of the external buffer type
are bundled in `PixelBuffer.WF`. -/

structure PixelBuffer where
  allocated : Bool
  width : Nat
  height : Nat
  bytesPerPixel : Nat
  data : List Nat
deriving DecidableEq

def PixelBuffer.size (p : PixelBuffer) : Nat :=
  p.width * p.height * p.bytesPerPixel

abbrev PixelBuffer.WF (p : PixelBuffer) : Prop :=
  (p.allocated = false → p.width = 0 ∧ p.height = 0 ∧ p.data = []) ∧
  (p.allocated = true → 0 < p.width ∧ 0 < p.height) ∧
  p.data.length = p.size

/-- The frame grabber's per-event outputs: the new-frame flag and the two
borrowed buffers (`kinectGrabber.isFrameNew()`, `getDepthPixels()`,
`getColorPixels()`). -/
structure KinectGrabber where
  isFrameNew : Bool
  depthPixels : PixelBuffer
  colorPixels : PixelBuffer
deriving DecidableEq

/-- The JSON metadata record written by `exportFrameData`. -/
structure FrameMetadata where
  frame : Nat
  timestamp : Nat
  depth_width : Nat
  depth_height : Nat
  rgb_width : Nat
  rgb_height : Nat
deriving DecidableEq

/-- A persisted artifact: a raw byte dump or a JSON metadata record (JSON
encoding itself is an external collaborator, out of scope). -/
inductive Artifact where
  | raw : List Nat → Artifact
  | json : FrameMetadata → Artifact
deriving DecidableEq

/-- The file system: newest write first, a later write to the same path
shadows the earlier one (files are opened with truncation). -/
abbrev FS := List (String × Artifact)

def FS.read (fs : FS) (path : String) : Option Artifact :=
  (fs.find? (fun e => e.1 == path)).map (fun e => e.2)

/-- I/O-failure environment: `(path, k)` means a write to `path` fails
after `k` bytes have reached the disk. -/
abbrev Faults := List (String × Nat)

def faultAt (faults : Faults) (path : String) : Option Nat :=
  (faults.find? (fun e => e.1 == path)).map (fun e => e.2)

/-- `ofFile f(path, WriteOnly, true); f.writeFromBuffer(p.getData(), p.size()); f.close();`
The open creates the file; a failing write leaves the prefix that was
written before the failure, and `close` does not delete it. -/
def writeRaw (faults : Faults) (path : String) (p : PixelBuffer) (fs : FS) : FS :=
  match faultAt faults path with
  | some k => (path, Artifact.raw ((p.data.take p.size).take k)) :: fs
  | none => (path, Artifact.raw (p.data.take p.size)) :: fs

/-- `ofSaveJson(path, metadata)`: a failure is modelled as the target not
being creatable, so no file appears. -/
def writeJson (faults : Faults) (path : String) (md : FrameMetadata) (fs : FS) : FS :=
  match faultAt faults path with
  | some _ => fs
  | none => (path, Artifact.json md) :: fs

/-- The metadata record built by `exportFrameData`: frame number, elapsed
milliseconds, and the dimensions reported by the two buffers. -/
def mkMetadata (g : KinectGrabber) (frameNum timeMs : Nat) : FrameMetadata :=
  { frame := frameNum
    timestamp := timeMs
    depth_width := g.depthPixels.width
    depth_height := g.depthPixels.height
    rgb_width := g.colorPixels.width
    rgb_height := g.colorPixels.height }

/-- Embedding of `exportFrameData` in `src/magic_sand_data_extractor.cpp`:
on a new frame, write the depth buffer if allocated, then the color buffer
if allocated, then always the metadata record. -/
def exportFrameData (faults : Faults) (g : KinectGrabber) (frameNum timeMs : Nat) (fs : FS) : FS :=
  if g.isFrameNew then
    let fs1 := if g.depthPixels.allocated then writeRaw faults (depthPath frameNum) g.depthPixels fs else fs
    let fs2 := if g.colorPixels.allocated then writeRaw faults (rgbPath frameNum) g.colorPixels fs1 else fs1
    writeJson faults (metaPath frameNum) (mkMetadata g frameNum timeMs) fs2
  else fs

/-- Embedding of `saveDepthData` in `src/magic_sand_extractor.cpp`: dump
the buffer to the fixed path `kinect_depth.raw`, with no allocation check. -/
def saveDepthData (faults : Faults) (p : PixelBuffer) (fs : FS) : FS :=
  writeRaw faults kinectDepthPath p fs

/-- Embedding of `saveColorData` in `src/magic_sand_extractor.cpp`. -/
def saveColorData (faults : Faults) (p : PixelBuffer) (fs : FS) : FS :=
  writeRaw faults kinectColorPath p fs

/-- Embedding of `exportKinectData` in `src/magic_sand_extractor.cpp`: on
a new frame, save depth then color, unconditionally. -/
def exportKinectData (faults : Faults) (g : KinectGrabber) (fs : FS) : FS :=
  if g.isFrameNew then saveColorData faults g.colorPixels (saveDepthData faults g.depthPixels fs)
  else fs

/-! ### The per-call result

The C++ `exportFrameData` returns `void`; the spec's `FrameExportSink`
contract (section 4.1) additionally returns a per-artifact summary. -/

inductive ArtifactStatus where
  | success : ArtifactStatus
  | skipped : ArtifactStatus
  | failure : ArtifactStatus
deriving DecidableEq

structure ExportResult where
  depth : ArtifactStatus
  color : ArtifactStatus
  meta : ArtifactStatus
deriving DecidableEq

/-- Modelled from the spec: the `ExportResult` of `exportFrame` (spec
section 4.1, step 5) is missing from the source, whose `exportFrameData`
returns `void`.  Statuses follow the spec's words over the code's control
flow: every artifact is `skipped` when no new frame is available; an
unallocated buffer's artifact is `skipped`; an attempted write is
`failure` when the I/O environment faults its path and `success`
otherwise; the metadata write is always attempted on a new frame. -/
def exportResult (faults : Faults) (g : KinectGrabber) (frameNum : Nat) : ExportResult :=
  if g.isFrameNew then
    { depth := if g.depthPixels.allocated then
        (if (faultAt faults (depthPath frameNum)).isSome then .failure else .success)
      else .skipped
      color := if g.colorPixels.allocated then
        (if (faultAt faults (rgbPath frameNum)).isSome then .failure else .success)
      else .skipped
      meta := if (faultAt faults (metaPath frameNum)).isSome then .failure else .success }
  else { depth := .skipped, color := .skipped, meta := .skipped }

/-! ### Read-back helper lemmas -/

theorem FS.read_cons_self (fs : FS) (p : String) (a : Artifact) :
    FS.read ((p, a) :: fs) p = some a := by
  simp [FS.read, List.find?]

theorem FS.read_cons_ne (fs : FS) (p q : String) (a : Artifact) (h : p ≠ q) :
    FS.read ((p, a) :: fs) q = FS.read fs q := by
  simp only [FS.read, List.find?]
  have : (p == q) = false := beq_eq_false_iff_ne.mpr h
  simp [this]

theorem read_writeRaw_self (faults : Faults) (path : String) (p : PixelBuffer) (fs : FS)
    (hf : faultAt faults path = none) :
    FS.read (writeRaw faults path p fs) path = some (Artifact.raw (p.data.take p.size)) := by
  simp [writeRaw, hf, FS.read_cons_self]

theorem read_writeRaw_ne (faults : Faults) (path q : String) (p : PixelBuffer) (fs : FS)
    (h : path ≠ q) :
    FS.read (writeRaw faults path p fs) q = FS.read fs q := by
  unfold writeRaw
  cases faultAt faults path <;> simp [FS.read_cons_ne _ _ _ _ h]

theorem read_writeJson_ne (faults : Faults) (path q : String) (md : FrameMetadata) (fs : FS)
    (h : path ≠ q) :
    FS.read (writeJson faults path md fs) q = FS.read fs q := by
  unfold writeJson
  cases faultAt faults path <;> simp [FS.read_cons_ne _ _ _ _ h]

theorem read_writeRaw_fault (faults : Faults) (path : String) (p : PixelBuffer) (fs : FS) (k : Nat)
    (hf : faultAt faults path = some k) :
    FS.read (writeRaw faults path p fs) path = some (Artifact.raw ((p.data.take p.size).take k)) := by
  simp [writeRaw, hf, FS.read_cons_self]

theorem faultAt_nil (p : String) : faultAt [] p = none := rfl

theorem read_export_meta (faults : Faults) (g : KinectGrabber) (n t : Nat) (fs : FS)
    (hnew : g.isFrameNew = true) (hfm : faultAt faults (metaPath n) = none) :
    FS.read (exportFrameData faults g n t fs) (metaPath n) =
      some (Artifact.json (mkMetadata g n t)) := by
  simp only [exportFrameData, hnew, if_true, writeJson, hfm]
  exact FS.read_cons_self _ _ _

theorem read_export_depth (faults : Faults) (g : KinectGrabber) (n t : Nat) (fs : FS)
    (hnew : g.isFrameNew = true) (hda : g.depthPixels.allocated = true)
    (hfd : faultAt faults (depthPath n) = none) :
    FS.read (exportFrameData faults g n t fs) (depthPath n) =
      some (Artifact.raw (g.depthPixels.data.take g.depthPixels.size)) := by
  simp only [exportFrameData, hnew, if_true, hda]
  rw [read_writeJson_ne _ _ _ _ _ (Ne.symm (depthPath_ne_metaPath n n))]
  by_cases hca : g.colorPixels.allocated = true
  · simp only [hca, if_true]
    rw [read_writeRaw_ne _ _ _ _ _ (Ne.symm (depthPath_ne_rgbPath n n))]
    exact read_writeRaw_self _ _ _ _ hfd
  · simp only [hca, if_false]
    exact read_writeRaw_self _ _ _ _ hfd

theorem read_export_depth_fault (faults : Faults) (g : KinectGrabber) (n t : Nat) (fs : FS) (k : Nat)
    (hnew : g.isFrameNew = true) (hda : g.depthPixels.allocated = true)
    (hfd : faultAt faults (depthPath n) = some k) :
    FS.read (exportFrameData faults g n t fs) (depthPath n) =
      some (Artifact.raw ((g.depthPixels.data.take g.depthPixels.size).take k)) := by
  simp only [exportFrameData, hnew, if_true, hda]
  rw [read_writeJson_ne _ _ _ _ _ (Ne.symm (depthPath_ne_metaPath n n))]
  by_cases hca : g.colorPixels.allocated = true
  · simp only [hca, if_true]
    rw [read_writeRaw_ne _ _ _ _ _ (Ne.symm (depthPath_ne_rgbPath n n))]
    exact read_writeRaw_fault _ _ _ _ _ hfd
  · simp only [hca, if_false]
    exact read_writeRaw_fault _ _ _ _ _ hfd

theorem read_export_rgb (faults : Faults) (g : KinectGrabber) (n t : Nat) (fs : FS)
    (hnew : g.isFrameNew = true) (hca : g.colorPixels.allocated = true)
    (hfc : faultAt faults (rgbPath n) = none) :
    FS.read (exportFrameData faults g n t fs) (rgbPath n) =
      some (Artifact.raw (g.colorPixels.data.take g.colorPixels.size)) := by
  simp only [exportFrameData, hnew, if_true, hca]
  rw [read_writeJson_ne _ _ _ _ _ (Ne.symm (rgbPath_ne_metaPath n n))]
  exact read_writeRaw_self _ _ _ _ hfc

theorem read_export_rgb_fault (faults : Faults) (g : KinectGrabber) (n t : Nat) (fs : FS) (k : Nat)
    (hnew : g.isFrameNew = true) (hca : g.colorPixels.allocated = true)
    (hfc : faultAt faults (rgbPath n) = some k) :
    FS.read (exportFrameData faults g n t fs) (rgbPath n) =
      some (Artifact.raw ((g.colorPixels.data.take g.colorPixels.size).take k)) := by
  simp only [exportFrameData, hnew, if_true, hca]
  rw [read_writeJson_ne _ _ _ _ _ (Ne.symm (rgbPath_ne_metaPath n n))]
  exact read_writeRaw_fault _ _ _ _ _ hfc

theorem read_export_depth_unalloc (faults : Faults) (g : KinectGrabber) (n t : Nat) (fs : FS)
    (hda : g.depthPixels.allocated = false) :
    FS.read (exportFrameData faults g n t fs) (depthPath n) = FS.read fs (depthPath n) := by
  by_cases hnew : g.isFrameNew = true
  · simp only [exportFrameData, hnew, if_true, hda, Bool.false_eq_true, if_false]
    rw [read_writeJson_ne _ _ _ _ _ (Ne.symm (depthPath_ne_metaPath n n))]
    by_cases hca : g.colorPixels.allocated = true
    · simp only [hca, if_true]
      rw [read_writeRaw_ne _ _ _ _ _ (Ne.symm (depthPath_ne_rgbPath n n))]
    · simp [hca]
  · simp only [exportFrameData, if_neg hnew]

theorem take_size_of_length_eq {p : PixelBuffer} (h : p.data.length = p.size) :
    p.data.take p.size = p.data := by
  rw [← h, List.take_length]

/-! ### Claim C1 -/

/-- C1: for every allocated buffer that is written, reading back the written
artifact yields exactly the bytes of the buffer passed in, whose length is
width x height x element size — each buffer independently of the sibling
buffer's allocation state and of faults at the sibling paths: the depth and
color artifacts of `exportFrameData` and both fixed-path artifacts of
`exportKinectData`. -/
theorem C1_roundtrip (faults : Faults) (g : KinectGrabber) (n t : Nat) (fs : FS)
    (hnew : g.isFrameNew = true)
    (hdwf : g.depthPixels.data.length = g.depthPixels.size)
    (hcwf : g.colorPixels.data.length = g.colorPixels.size) :
    (g.depthPixels.allocated = true → faultAt faults (depthPath n) = none →
      FS.read (exportFrameData faults g n t fs) (depthPath n) =
        some (Artifact.raw g.depthPixels.data)) ∧
    (g.colorPixels.allocated = true → faultAt faults (rgbPath n) = none →
      FS.read (exportFrameData faults g n t fs) (rgbPath n) =
        some (Artifact.raw g.colorPixels.data)) ∧
    (faultAt faults kinectDepthPath = none →
      FS.read (exportKinectData faults g fs) kinectDepthPath =
        some (Artifact.raw g.depthPixels.data)) ∧
    (faultAt faults kinectColorPath = none →
      FS.read (exportKinectData faults g fs) kinectColorPath =
        some (Artifact.raw g.colorPixels.data)) ∧
    g.depthPixels.data.length = g.depthPixels.width * g.depthPixels.height * g.depthPixels.bytesPerPixel ∧
    g.colorPixels.data.length = g.colorPixels.width * g.colorPixels.height * g.colorPixels.bytesPerPixel := by
  refine ⟨?_, ?_, ?_, ?_, ?_, ?_⟩
  · intro hda hfd
    rw [read_export_depth faults g n t fs hnew hda hfd, take_size_of_length_eq hdwf]
  · intro hca hfc
    rw [read_export_rgb faults g n t fs hnew hca hfc, take_size_of_length_eq hcwf]
  · intro hkd
    simp only [exportKinectData, hnew, if_true, saveColorData, saveDepthData]
    rw [read_writeRaw_ne _ _ _ _ _ (by decide : kinectColorPath ≠ kinectDepthPath),
      read_writeRaw_self _ _ _ _ hkd, take_size_of_length_eq hdwf]
  · intro hkc
    simp only [exportKinectData, hnew, if_true, saveColorData, saveDepthData]
    rw [read_writeRaw_self _ _ _ _ hkc, take_size_of_length_eq hcwf]
  · simpa [PixelBuffer.size] using hdwf
  · simpa [PixelBuffer.size] using hcwf

def c1Input : KinectGrabber :=
  ⟨true, ⟨true, 1, 1, 1, [7]⟩, ⟨false, 0, 0, 3, []⟩⟩

theorem C1_roundtrip_witness :
    (c1Input.isFrameNew = true) ∧
    (c1Input.depthPixels.data.length = c1Input.depthPixels.size) ∧
    (c1Input.colorPixels.data.length = c1Input.colorPixels.size) ∧
    ((c1Input.depthPixels.allocated = true → faultAt [] (depthPath 2) = none →
       FS.read (exportFrameData [] c1Input 2 9 []) (depthPath 2) =
         some (Artifact.raw c1Input.depthPixels.data)) ∧
     (c1Input.colorPixels.allocated = true → faultAt [] (rgbPath 2) = none →
       FS.read (exportFrameData [] c1Input 2 9 []) (rgbPath 2) =
         some (Artifact.raw c1Input.colorPixels.data)) ∧
     (faultAt [] kinectDepthPath = none →
       FS.read (exportKinectData [] c1Input []) kinectDepthPath =
         some (Artifact.raw c1Input.depthPixels.data)) ∧
     (faultAt [] kinectColorPath = none →
       FS.read (exportKinectData [] c1Input []) kinectColorPath =
         some (Artifact.raw c1Input.colorPixels.data)) ∧
     c1Input.depthPixels.data.length =
       c1Input.depthPixels.width * c1Input.depthPixels.height * c1Input.depthPixels.bytesPerPixel ∧
     c1Input.colorPixels.data.length =
       c1Input.colorPixels.width * c1Input.colorPixels.height * c1Input.colorPixels.bytesPerPixel) :=
  ⟨rfl, rfl, rfl, C1_roundtrip [] c1Input 2 9 [] rfl rfl rfl⟩

/-! ### Claim C2 -/

/-- C2 counterexample: the claim also ranges over `saveDepthData` in
`src/magic_sand_extractor.cpp`, which has no allocation check: with an
unallocated depth buffer and a new frame, `exportKinectData` still
produces a depth artifact (an empty `kinect_depth.raw`). -/
theorem C2_counterexample :
    ((⟨true, ⟨false, 0, 0, 1, []⟩, ⟨false, 0, 0, 1, []⟩⟩ : KinectGrabber)).depthPixels.allocated = false ∧
    FS.read (exportKinectData [] ⟨true, ⟨false, 0, 0, 1, []⟩, ⟨false, 0, 0, 1, []⟩⟩ []) kinectDepthPath =
      some (Artifact.raw []) := by
  exact ⟨rfl, by decide⟩

/-- C2 amended: for `exportFrameData`, an unallocated depth buffer yields
no depth artifact — the depth path of the file system is untouched, not
even by a partial file — and the result marks depth skipped, for every
state of the color buffer; the `exportKinectData` variant instead writes
`kinect_depth.raw` unconditionally. -/
theorem C2_amended (faults : Faults) (g : KinectGrabber) (n t : Nat) (fs : FS)
    (hda : g.depthPixels.allocated = false) :
    FS.read (exportFrameData faults g n t fs) (depthPath n) = FS.read fs (depthPath n) ∧
    (exportResult faults g n).depth = ArtifactStatus.skipped := by
  refine ⟨read_export_depth_unalloc faults g n t fs hda, ?_⟩
  by_cases hnew : g.isFrameNew = true
  · simp [exportResult, hnew, hda]
  · simp [exportResult, hnew]

def c2Input : KinectGrabber :=
  ⟨true, ⟨false, 0, 0, 1, []⟩, ⟨true, 1, 1, 3, [1, 2, 3]⟩⟩

theorem C2_amended_witness :
    (c2Input.depthPixels.allocated = false) ∧
    (FS.read (exportFrameData [] c2Input 4 0 []) (depthPath 4) = FS.read [] (depthPath 4) ∧
     (exportResult [] c2Input 4).depth = ArtifactStatus.skipped) :=
  ⟨rfl, C2_amended [] c2Input 4 0 [] rfl⟩

/-! ### Claim C3 -/

/-- C3 counterexample: the claim also ranges over `saveDepthData` in
`src/magic_sand_extractor.cpp`, which writes every frame's depth artifact
to the one fixed identifier `kinect_depth.raw`: exporting two successive
frames (depth bytes `[1]`, then `[2]`) stores both under the same path,
the second shadowing the first, so distinct frames reuse an identifier. -/
theorem C3_counterexample :
    FS.read (exportKinectData [] ⟨true, ⟨true, 1, 1, 1, [1]⟩, ⟨false, 0, 0, 1, []⟩⟩ []) kinectDepthPath =
      some (Artifact.raw [1]) ∧
    exportKinectData [] ⟨true, ⟨true, 1, 1, 1, [2]⟩, ⟨false, 0, 0, 1, []⟩⟩
        (exportKinectData [] ⟨true, ⟨true, 1, 1, 1, [1]⟩, ⟨false, 0, 0, 1, []⟩⟩ []) =
      [(kinectColorPath, Artifact.raw []), (kinectDepthPath, Artifact.raw [2]),
       (kinectColorPath, Artifact.raw []), (kinectDepthPath, Artifact.raw [1])] ∧
    FS.read (exportKinectData [] ⟨true, ⟨true, 1, 1, 1, [2]⟩, ⟨false, 0, 0, 1, []⟩⟩
        (exportKinectData [] ⟨true, ⟨true, 1, 1, 1, [1]⟩, ⟨false, 0, 0, 1, []⟩⟩ [])) kinectDepthPath =
      some (Artifact.raw [2]) := by
  refine ⟨by decide, by decide, by decide⟩

/-- C3 amended: for `exportFrameData`, distinct frame numbers give
distinct depth, color and metadata identifiers (the decimal frame number
embedded in each path makes the three naming families injective);
`exportKinectData` instead reuses the fixed identifiers
`kinect_depth.raw` and `kinect_color.raw` for every frame. -/
theorem C3_amended (n m : Nat) (h : n ≠ m) :
    depthPath n ≠ depthPath m ∧ rgbPath n ≠ rgbPath m ∧ metaPath n ≠ metaPath m :=
  ⟨fun he => h (depthPath_inj he), fun he => h (rgbPath_inj he), fun he => h (metaPath_inj he)⟩

theorem C3_amended_witness :
    ((0 : Nat) ≠ 37) ∧
    (depthPath 0 ≠ depthPath 37 ∧ rgbPath 0 ≠ rgbPath 37 ∧ metaPath 0 ≠ metaPath 37) :=
  ⟨by decide, C3_amended 0 37 (by decide)⟩

/-! ### Claim C4 -/

/-- C4: when the frame source reports no new frame, both exporters leave
the file system exactly as it was (zero writes, no side effects) and the
result marks all three artifacts skipped. -/
theorem C4_no_new_frame (faults : Faults) (g : KinectGrabber) (n t : Nat) (fs : FS)
    (h : g.isFrameNew = false) :
    exportFrameData faults g n t fs = fs ∧
    exportKinectData faults g fs = fs ∧
    exportResult faults g n =
      { depth := ArtifactStatus.skipped, color := ArtifactStatus.skipped,
        meta := ArtifactStatus.skipped } := by
  refine ⟨?_, ?_, ?_⟩ <;> simp [exportFrameData, exportKinectData, exportResult, h]

def c4Input : KinectGrabber :=
  ⟨false, ⟨true, 1, 1, 1, [7]⟩, ⟨true, 1, 1, 3, [1, 2, 3]⟩⟩

theorem C4_no_new_frame_witness :
    (c4Input.isFrameNew = false) ∧
    (exportFrameData [] c4Input 5 11 [] = [] ∧
     exportKinectData [] c4Input [] = [] ∧
     exportResult [] c4Input 5 =
       { depth := ArtifactStatus.skipped, color := ArtifactStatus.skipped,
         meta := ArtifactStatus.skipped }) :=
  ⟨rfl, C4_no_new_frame [] c4Input 5 11 [] rfl⟩

/-! ### Claim C5 -/

/-- C5: the metadata record written in an export event carries
`depth_width`/`depth_height` equal to 0 exactly when the depth buffer is
unallocated, and otherwise equal to the depth buffer's actual dimensions;
likewise `rgb_width`/`rgb_height` for the color buffer. -/
theorem C5_metadata_dims (faults : Faults) (g : KinectGrabber) (n t : Nat) (fs : FS)
    (hnew : g.isFrameNew = true)
    (hdwf : g.depthPixels.WF) (hcwf : g.colorPixels.WF)
    (hfm : faultAt faults (metaPath n) = none) :
    FS.read (exportFrameData faults g n t fs) (metaPath n) = some (Artifact.json (mkMetadata g n t)) ∧
    (((mkMetadata g n t).depth_width = 0 ∧ (mkMetadata g n t).depth_height = 0) ↔
      g.depthPixels.allocated = false) ∧
    (g.depthPixels.allocated = true →
      (mkMetadata g n t).depth_width = g.depthPixels.width ∧
      (mkMetadata g n t).depth_height = g.depthPixels.height) ∧
    (((mkMetadata g n t).rgb_width = 0 ∧ (mkMetadata g n t).rgb_height = 0) ↔
      g.colorPixels.allocated = false) ∧
    (g.colorPixels.allocated = true →
      (mkMetadata g n t).rgb_width = g.colorPixels.width ∧
      (mkMetadata g n t).rgb_height = g.colorPixels.height) := by
  refine ⟨read_export_meta faults g n t fs hnew hfm, ?_, fun _ => ⟨rfl, rfl⟩, ?_, fun _ => ⟨rfl, rfl⟩⟩
  · simp only [mkMetadata]
    constructor
    · rintro ⟨hw, _⟩
      cases hall : g.depthPixels.allocated
      · rfl
      · exact absurd hw (Nat.pos_iff_ne_zero.mp (hdwf.2.1 hall).1)
    · intro hall
      exact ⟨(hdwf.1 hall).1, (hdwf.1 hall).2.1⟩
  · simp only [mkMetadata]
    constructor
    · rintro ⟨hw, _⟩
      cases hall : g.colorPixels.allocated
      · rfl
      · exact absurd hw (Nat.pos_iff_ne_zero.mp (hcwf.2.1 hall).1)
    · intro hall
      exact ⟨(hcwf.1 hall).1, (hcwf.1 hall).2.1⟩

def c5Input : KinectGrabber :=
  ⟨true, ⟨true, 2, 3, 1, [0, 0, 0, 0, 0, 0]⟩, ⟨false, 0, 0, 1, []⟩⟩

theorem C5_metadata_dims_witness :
    (c5Input.isFrameNew = true) ∧
    c5Input.depthPixels.WF ∧ c5Input.colorPixels.WF ∧
    (faultAt [] (metaPath 1) = none) ∧
    (FS.read (exportFrameData [] c5Input 1 2 []) (metaPath 1) =
       some (Artifact.json (mkMetadata c5Input 1 2)) ∧
     (((mkMetadata c5Input 1 2).depth_width = 0 ∧ (mkMetadata c5Input 1 2).depth_height = 0) ↔
       c5Input.depthPixels.allocated = false) ∧
     (c5Input.depthPixels.allocated = true →
       (mkMetadata c5Input 1 2).depth_width = c5Input.depthPixels.width ∧
       (mkMetadata c5Input 1 2).depth_height = c5Input.depthPixels.height) ∧
     (((mkMetadata c5Input 1 2).rgb_width = 0 ∧ (mkMetadata c5Input 1 2).rgb_height = 0) ↔
       c5Input.colorPixels.allocated = false) ∧
     (c5Input.colorPixels.allocated = true →
       (mkMetadata c5Input 1 2).rgb_width = c5Input.colorPixels.width ∧
       (mkMetadata c5Input 1 2).rgb_height = c5Input.colorPixels.height)) :=
  ⟨rfl, by decide, by decide, rfl,
    C5_metadata_dims [] c5Input 1 2 [] rfl (by decide) (by decide) rfl⟩

/-! ### Claim C6 -/

/-- C6: an I/O failure on any one of the three artifacts is isolated to
that artifact: with both buffers allocated, whichever single target
faults — depth, color, or metadata — the result records exactly that
artifact as failed and the other two as successful, and the other two
artifacts are still fully written; in particular a failed color write with
a clean depth write gives depth success, color failure, metadata success. -/
theorem C6_failure_isolated (faults : Faults) (g : KinectGrabber) (n t : Nat) (fs : FS)
    (hnew : g.isFrameNew = true)
    (hda : g.depthPixels.allocated = true) (hca : g.colorPixels.allocated = true) :
    ((faultAt faults (depthPath n)).isSome = true →
      faultAt faults (rgbPath n) = none → faultAt faults (metaPath n) = none →
      exportResult faults g n =
        { depth := ArtifactStatus.failure, color := ArtifactStatus.success,
          meta := ArtifactStatus.success } ∧
      FS.read (exportFrameData faults g n t fs) (rgbPath n) =
        some (Artifact.raw (g.colorPixels.data.take g.colorPixels.size)) ∧
      FS.read (exportFrameData faults g n t fs) (metaPath n) =
        some (Artifact.json (mkMetadata g n t))) ∧
    (faultAt faults (depthPath n) = none →
      (faultAt faults (rgbPath n)).isSome = true → faultAt faults (metaPath n) = none →
      exportResult faults g n =
        { depth := ArtifactStatus.success, color := ArtifactStatus.failure,
          meta := ArtifactStatus.success } ∧
      FS.read (exportFrameData faults g n t fs) (depthPath n) =
        some (Artifact.raw (g.depthPixels.data.take g.depthPixels.size)) ∧
      FS.read (exportFrameData faults g n t fs) (metaPath n) =
        some (Artifact.json (mkMetadata g n t))) ∧
    (faultAt faults (depthPath n) = none →
      faultAt faults (rgbPath n) = none → (faultAt faults (metaPath n)).isSome = true →
      exportResult faults g n =
        { depth := ArtifactStatus.success, color := ArtifactStatus.success,
          meta := ArtifactStatus.failure } ∧
      FS.read (exportFrameData faults g n t fs) (depthPath n) =
        some (Artifact.raw (g.depthPixels.data.take g.depthPixels.size)) ∧
      FS.read (exportFrameData faults g n t fs) (rgbPath n) =
        some (Artifact.raw (g.colorPixels.data.take g.colorPixels.size))) := by
  refine ⟨fun hfd hfc hfm => ?_, fun hfd hfc hfm => ?_, fun hfd hfc hfm => ?_⟩
  · exact ⟨by simp [exportResult, hnew, hda, hca, hfd, hfc, hfm],
      read_export_rgb faults g n t fs hnew hca hfc,
      read_export_meta faults g n t fs hnew hfm⟩
  · exact ⟨by simp [exportResult, hnew, hda, hca, hfd, hfc, hfm],
      read_export_depth faults g n t fs hnew hda hfd,
      read_export_meta faults g n t fs hnew hfm⟩
  · exact ⟨by simp [exportResult, hnew, hda, hca, hfd, hfc, hfm],
      read_export_depth faults g n t fs hnew hda hfd,
      read_export_rgb faults g n t fs hnew hca hfc⟩

def c6Input : KinectGrabber :=
  ⟨true, ⟨true, 1, 1, 1, [7]⟩, ⟨true, 1, 1, 3, [1, 2, 3]⟩⟩

theorem C6_failure_isolated_witness :
    (c6Input.isFrameNew = true) ∧
    (c6Input.depthPixels.allocated = true) ∧ (c6Input.colorPixels.allocated = true) ∧
    (((faultAt [(depthPath 3, 0)] (depthPath 3)).isSome = true →
       faultAt [(depthPath 3, 0)] (rgbPath 3) = none →
       faultAt [(depthPath 3, 0)] (metaPath 3) = none →
       exportResult [(depthPath 3, 0)] c6Input 3 =
         { depth := ArtifactStatus.failure, color := ArtifactStatus.success,
           meta := ArtifactStatus.success } ∧
       FS.read (exportFrameData [(depthPath 3, 0)] c6Input 3 1 []) (rgbPath 3) =
         some (Artifact.raw (c6Input.colorPixels.data.take c6Input.colorPixels.size)) ∧
       FS.read (exportFrameData [(depthPath 3, 0)] c6Input 3 1 []) (metaPath 3) =
         some (Artifact.json (mkMetadata c6Input 3 1))) ∧
     (faultAt [(depthPath 3, 0)] (depthPath 3) = none →
       (faultAt [(depthPath 3, 0)] (rgbPath 3)).isSome = true →
       faultAt [(depthPath 3, 0)] (metaPath 3) = none →
       exportResult [(depthPath 3, 0)] c6Input 3 =
         { depth := ArtifactStatus.success, color := ArtifactStatus.failure,
           meta := ArtifactStatus.success } ∧
       FS.read (exportFrameData [(depthPath 3, 0)] c6Input 3 1 []) (depthPath 3) =
         some (Artifact.raw (c6Input.depthPixels.data.take c6Input.depthPixels.size)) ∧
       FS.read (exportFrameData [(depthPath 3, 0)] c6Input 3 1 []) (metaPath 3) =
         some (Artifact.json (mkMetadata c6Input 3 1))) ∧
     (faultAt [(depthPath 3, 0)] (depthPath 3) = none →
       faultAt [(depthPath 3, 0)] (rgbPath 3) = none →
       (faultAt [(depthPath 3, 0)] (metaPath 3)).isSome = true →
       exportResult [(depthPath 3, 0)] c6Input 3 =
         { depth := ArtifactStatus.success, color := ArtifactStatus.success,
           meta := ArtifactStatus.failure } ∧
       FS.read (exportFrameData [(depthPath 3, 0)] c6Input 3 1 []) (depthPath 3) =
         some (Artifact.raw (c6Input.depthPixels.data.take c6Input.depthPixels.size)) ∧
       FS.read (exportFrameData [(depthPath 3, 0)] c6Input 3 1 []) (rgbPath 3) =
         some (Artifact.raw (c6Input.colorPixels.data.take c6Input.colorPixels.size)))) :=
  ⟨rfl, rfl, rfl, C6_failure_isolated [(depthPath 3, 0)] c6Input 3 1 [] rfl rfl rfl⟩

/-! ### Claim C7 -/

/-- C7 counterexample: a depth write that faults after 2 of 4 bytes is
reported as a failure, yet a depth artifact file exists afterwards (the
file opened for writing is closed, never deleted), holding the 2-byte
prefix — so an artifact file can exist although its write did not fully
succeed. -/
theorem C7_counterexample :
    (exportResult [(depthPath 5, 2)]
        ⟨true, ⟨true, 4, 1, 1, [9, 9, 9, 9]⟩, ⟨false, 0, 0, 1, []⟩⟩ 5).depth =
      ArtifactStatus.failure ∧
    FS.read (exportFrameData [(depthPath 5, 2)]
        ⟨true, ⟨true, 4, 1, 1, [9, 9, 9, 9]⟩, ⟨false, 0, 0, 1, []⟩⟩ 5 0 []) (depthPath 5) =
      some (Artifact.raw [9, 9]) := by
  exact ⟨by decide, by decide⟩

/-- C7 amended: a failed buffer-artifact write leaves the partially
written file on disk for every buffer writer in both snippets: the file is
created when the output is opened and is closed, not deleted, on the
failure path, so after the call the artifact file exists and holds exactly
the bytes written before the failure — for `exportFrameData`'s depth and
color artifacts (with the failure recorded in the modelled result) and for
`exportKinectData`'s fixed-path depth and color artifacts. -/
theorem C7_amended (faults : Faults) (g : KinectGrabber) (n t : Nat) (fs : FS) (k : Nat)
    (hnew : g.isFrameNew = true) :
    (g.depthPixels.allocated = true → faultAt faults (depthPath n) = some k →
      FS.read (exportFrameData faults g n t fs) (depthPath n) =
        some (Artifact.raw ((g.depthPixels.data.take g.depthPixels.size).take k)) ∧
      (exportResult faults g n).depth = ArtifactStatus.failure) ∧
    (g.colorPixels.allocated = true → faultAt faults (rgbPath n) = some k →
      FS.read (exportFrameData faults g n t fs) (rgbPath n) =
        some (Artifact.raw ((g.colorPixels.data.take g.colorPixels.size).take k)) ∧
      (exportResult faults g n).color = ArtifactStatus.failure) ∧
    (faultAt faults kinectDepthPath = some k →
      FS.read (exportKinectData faults g fs) kinectDepthPath =
        some (Artifact.raw ((g.depthPixels.data.take g.depthPixels.size).take k))) ∧
    (faultAt faults kinectColorPath = some k →
      FS.read (exportKinectData faults g fs) kinectColorPath =
        some (Artifact.raw ((g.colorPixels.data.take g.colorPixels.size).take k))) := by
  refine ⟨fun hda hfd => ?_, fun hca hfc => ?_, fun hkd => ?_, fun hkc => ?_⟩
  · exact ⟨read_export_depth_fault faults g n t fs k hnew hda hfd,
      by simp [exportResult, hnew, hda, hfd]⟩
  · exact ⟨read_export_rgb_fault faults g n t fs k hnew hca hfc,
      by simp [exportResult, hnew, hca, hfc]⟩
  · simp only [exportKinectData, hnew, if_true, saveColorData, saveDepthData]
    rw [read_writeRaw_ne _ _ _ _ _ (by decide : kinectColorPath ≠ kinectDepthPath)]
    exact read_writeRaw_fault _ _ _ _ _ hkd
  · simp only [exportKinectData, hnew, if_true, saveColorData, saveDepthData]
    exact read_writeRaw_fault _ _ _ _ _ hkc

def c7Input : KinectGrabber :=
  ⟨true, ⟨true, 4, 1, 1, [9, 9, 9, 9]⟩, ⟨true, 1, 1, 3, [8, 8, 8]⟩⟩

theorem C7_amended_witness :
    (c7Input.isFrameNew = true) ∧
    ((c7Input.depthPixels.allocated = true →
       faultAt [(rgbPath 5, 2), (kinectColorPath, 2)] (depthPath 5) = some 2 →
       FS.read (exportFrameData [(rgbPath 5, 2), (kinectColorPath, 2)] c7Input 5 0 []) (depthPath 5) =
         some (Artifact.raw ((c7Input.depthPixels.data.take c7Input.depthPixels.size).take 2)) ∧
       (exportResult [(rgbPath 5, 2), (kinectColorPath, 2)] c7Input 5).depth = ArtifactStatus.failure) ∧
     (c7Input.colorPixels.allocated = true →
       faultAt [(rgbPath 5, 2), (kinectColorPath, 2)] (rgbPath 5) = some 2 →
       FS.read (exportFrameData [(rgbPath 5, 2), (kinectColorPath, 2)] c7Input 5 0 []) (rgbPath 5) =
         some (Artifact.raw ((c7Input.colorPixels.data.take c7Input.colorPixels.size).take 2)) ∧
       (exportResult [(rgbPath 5, 2), (kinectColorPath, 2)] c7Input 5).color = ArtifactStatus.failure) ∧
     (faultAt [(rgbPath 5, 2), (kinectColorPath, 2)] kinectDepthPath = some 2 →
       FS.read (exportKinectData [(rgbPath 5, 2), (kinectColorPath, 2)] c7Input []) kinectDepthPath =
         some (Artifact.raw ((c7Input.depthPixels.data.take c7Input.depthPixels.size).take 2))) ∧
     (faultAt [(rgbPath 5, 2), (kinectColorPath, 2)] kinectColorPath = some 2 →
       FS.read (exportKinectData [(rgbPath 5, 2), (kinectColorPath, 2)] c7Input []) kinectColorPath =
         some (Artifact.raw ((c7Input.colorPixels.data.take c7Input.colorPixels.size).take 2)))) :=
  ⟨rfl, C7_amended [(rgbPath 5, 2), (kinectColorPath, 2)] c7Input 5 0 [] 2 rfl⟩

/-! ### Claim C8 -/

def c8Input : KinectGrabber :=
  ⟨true, ⟨true, 640, 480, 2, List.replicate 614400 0⟩, ⟨false, 0, 0, 1, []⟩⟩

theorem C8_fs_shape_general (d : List Nat) (hd : d.length = 614400) :
    exportFrameData [] ⟨true, ⟨true, 640, 480, 2, d⟩, ⟨false, 0, 0, 1, []⟩⟩ 7 0 [] =
      [(metaPath 7, Artifact.json ⟨7, 0, 640, 480, 0, 0⟩),
       (depthPath 7, Artifact.raw d)] := by
  have ht : d.take (640 * 480 * 2) = d := by
    have h2 : 640 * 480 * 2 = 614400 := by norm_num
    rw [h2, ← hd, List.take_length]
  simp [exportFrameData, writeRaw, writeJson, faultAt_nil, mkMetadata,
    PixelBuffer.size, ht]

theorem C8_fs_shape :
    exportFrameData [] c8Input 7 0 [] =
      [(metaPath 7, Artifact.json ⟨7, 0, 640, 480, 0, 0⟩),
       (depthPath 7, Artifact.raw (List.replicate 614400 0))] :=
  C8_fs_shape_general (List.replicate 614400 0) (by rw [List.length_replicate])

/-- C8: for frame 7 with a depth buffer allocated at 640 x 480 x 2 bytes
per pixel, all bytes zero, and an unallocated color buffer,
`exportFrameData` writes a depth artifact of exactly 614400 bytes, writes
no color artifact, and writes a metadata record with frame 7, depth
dimensions 640 x 480 and rgb dimensions 0 x 0 — exactly two files. -/
theorem C8_scenario :
    FS.read (exportFrameData [] c8Input 7 0 []) (depthPath 7) =
      some (Artifact.raw (List.replicate 614400 0)) ∧
    (List.replicate 614400 (0 : Nat)).length = 614400 ∧
    FS.read (exportFrameData [] c8Input 7 0 []) (rgbPath 7) = none ∧
    FS.read (exportFrameData [] c8Input 7 0 []) (metaPath 7) =
      some (Artifact.json ⟨7, 0, 640, 480, 0, 0⟩) ∧
    (exportFrameData [] c8Input 7 0 []).length = 2 := by
  rw [C8_fs_shape]
  refine ⟨?_, List.length_replicate 614400 0, ?_, ?_, rfl⟩
  · rw [FS.read_cons_ne _ _ _ _ (Ne.symm (depthPath_ne_metaPath 7 7))]
    exact FS.read_cons_self _ _ _
  · rw [FS.read_cons_ne _ _ _ _ (Ne.symm (rgbPath_ne_metaPath 7 7)),
      FS.read_cons_ne _ _ _ _ (depthPath_ne_rgbPath 7 7)]
    rfl
  · exact FS.read_cons_self _ _ _

/-! ### Claim C9 -/

/-- C9 counterexample: with a new frame, an allocated depth buffer and an
unallocated color buffer, `exportFrameData` persists exactly two
artifacts — the depth file and the metadata file (metadata is written
unconditionally on a new frame) — contradicting "zero, one, or three,
never exactly two". -/
theorem C9_counterexample :
    exportFrameData [] ⟨true, ⟨true, 1, 1, 1, [5]⟩, ⟨false, 0, 0, 1, []⟩⟩ 3 0 [] =
      [(metaPath 3, Artifact.json ⟨3, 0, 1, 1, 0, 0⟩), (depthPath 3, Artifact.raw [5])] ∧
    (exportFrameData [] ⟨true, ⟨true, 1, 1, 1, [5]⟩, ⟨false, 0, 0, 1, []⟩⟩ 3 0 []).length = 2 := by
  exact ⟨by decide, by decide⟩

/-- C9 amended: with no I/O faults, `exportFrameData` persists zero
artifacts when no new frame is available and otherwise one (the always
written metadata record) plus one per allocated buffer — so zero, one,
two, or three; `exportKinectData` persists zero or, on a new frame, two
(it writes both fixed files with no allocation check). -/
theorem C9_amended (g : KinectGrabber) (n t : Nat) :
    (exportFrameData [] g n t []).length =
      (if g.isFrameNew then
        1 + (if g.depthPixels.allocated then 1 else 0) +
          (if g.colorPixels.allocated then 1 else 0)
       else 0) ∧
    (exportKinectData [] g []).length = (if g.isFrameNew then 2 else 0) := by
  constructor
  · by_cases hnew : g.isFrameNew = true
    · by_cases hda : g.depthPixels.allocated = true <;>
        by_cases hca : g.colorPixels.allocated = true <;>
          simp [exportFrameData, writeRaw, writeJson, faultAt_nil, hnew, hda, hca]
    · simp [exportFrameData, hnew]
  · by_cases hnew : g.isFrameNew = true <;>
      simp [exportKinectData, saveDepthData, saveColorData, writeRaw, faultAt_nil, hnew]

/-! ### Claim C10 -/

/-- C10: both exporters and the result are deterministic functions of
their inputs: two invocations with the same new-frame flag, byte-identical
buffers with the same allocation flags and dimensions, the same frame
number, timestamp, fault environment and starting file system produce
identical file systems and identical results. -/
theorem C10_deterministic (faults : Faults) (g g' : KinectGrabber) (n n' t t' : Nat) (fs fs' : FS)
    (hn : g.isFrameNew = g'.isFrameNew)
    (hd1 : g.depthPixels.allocated = g'.depthPixels.allocated)
    (hd2 : g.depthPixels.width = g'.depthPixels.width)
    (hd3 : g.depthPixels.height = g'.depthPixels.height)
    (hd4 : g.depthPixels.bytesPerPixel = g'.depthPixels.bytesPerPixel)
    (hd5 : g.depthPixels.data = g'.depthPixels.data)
    (hc1 : g.colorPixels.allocated = g'.colorPixels.allocated)
    (hc2 : g.colorPixels.width = g'.colorPixels.width)
    (hc3 : g.colorPixels.height = g'.colorPixels.height)
    (hc4 : g.colorPixels.bytesPerPixel = g'.colorPixels.bytesPerPixel)
    (hc5 : g.colorPixels.data = g'.colorPixels.data)
    (hfr : n = n') (hts : t = t') (hfs : fs = fs') :
    exportFrameData faults g n t fs = exportFrameData faults g' n' t' fs' ∧
    exportResult faults g n = exportResult faults g' n' ∧
    exportKinectData faults g fs = exportKinectData faults g' fs' := by
  have hg : g = g' := by
    obtain ⟨f, ⟨da, dw, dh, db, dd⟩, ⟨ca, cw, ch, cb, cd⟩⟩ := g
    obtain ⟨f', ⟨da', dw', dh', db', dd'⟩, ⟨ca', cw', ch', cb', cd'⟩⟩ := g'
    simp only at hn hd1 hd2 hd3 hd4 hd5 hc1 hc2 hc3 hc4 hc5
    subst hn hd1 hd2 hd3 hd4 hd5 hc1 hc2 hc3 hc4 hc5
    rfl
  subst hg hfr hts hfs
  exact ⟨rfl, rfl, rfl⟩

def c10Input : KinectGrabber :=
  ⟨true, ⟨true, 1, 1, 1, [3]⟩, ⟨true, 1, 1, 3, [4, 5, 6]⟩⟩

theorem C10_deterministic_witness :
    (c10Input.isFrameNew = c10Input.isFrameNew) ∧
    (c10Input.depthPixels.allocated = c10Input.depthPixels.allocated) ∧
    (c10Input.depthPixels.width = c10Input.depthPixels.width) ∧
    (c10Input.depthPixels.height = c10Input.depthPixels.height) ∧
    (c10Input.depthPixels.bytesPerPixel = c10Input.depthPixels.bytesPerPixel) ∧
    (c10Input.depthPixels.data = c10Input.depthPixels.data) ∧
    (c10Input.colorPixels.allocated = c10Input.colorPixels.allocated) ∧
    (c10Input.colorPixels.width = c10Input.colorPixels.width) ∧
    (c10Input.colorPixels.height = c10Input.colorPixels.height) ∧
    (c10Input.colorPixels.bytesPerPixel = c10Input.colorPixels.bytesPerPixel) ∧
    (c10Input.colorPixels.data = c10Input.colorPixels.data) ∧
    ((8 : Nat) = 8) ∧ ((2 : Nat) = 2) ∧ (([] : FS) = []) ∧
    (exportFrameData [] c10Input 8 2 [] = exportFrameData [] c10Input 8 2 [] ∧
     exportResult [] c10Input 8 = exportResult [] c10Input 8 ∧
     exportKinectData [] c10Input [] = exportKinectData [] c10Input []) :=
  ⟨rfl, rfl, rfl, rfl, rfl, rfl, rfl, rfl, rfl, rfl, rfl, rfl, rfl, rfl,
    C10_deterministic [] c10Input c10Input 8 8 2 2 [] []
      rfl rfl rfl rfl rfl rfl rfl rfl rfl rfl rfl rfl rfl rfl⟩
